import Mathlib

/-!
Verification of the DIMSE message layer of pynetdicom (legacy).

This file gives a shallow embedding of `pynetdicom/DIMSEprovider.py`
(`DIMSEServiceProvider.Send` and `DIMSEServiceProvider.Receive`) together
with the interfaces those functions use (the DUL state-machine queue, the
`DIMSEMessage` assembly buffer, and the `FromParams`/`ToParams` primitive
transformations, which live outside the provided sources and are therefore
modelled from the specification), plus a model of the `echoscu` application
main script.  Theorems about the embedded definitions settle the specified
properties of the message layer.
-/

namespace PynetdicomLegacy

/-- A Presentation Data Value item: a presentation-context ID, the
message-control-header bits (command-set vs data-set fragment, last-fragment
flag), and the fragment payload (modelled as an opaque byte list). -/
structure PDV where
  pcid : Nat
  isCommand : Bool
  isLast : Bool
  payload : List Nat
deriving Repr, DecidableEq

/-- A `P_DATA_ServiceParameters` primitive: carries one or more PDV items. -/
structure PDataPrim where
  pdvs : List PDV
deriving Repr, DecidableEq

/-- The DUL-level service primitives surfaced to the DIMSE layer by the
state machine: data-transfer primitives and the out-of-band ones (release,
abort, associate-related). -/
inductive DULPrim where
  | pData (d : PDataPrim)
  | release
  | abort
  | associate
deriving Repr, DecidableEq

/-- Whether a DUL primitive has class `P_DATA_ServiceParameters`
(the test `nxt.__class__ is P_DATA_ServiceParameters` of the source). -/
def DULPrim.isPData : DULPrim → Bool
  | .pData _ => true
  | _ => false

/-- Modelled from the spec: the queue-like interface of the DUL state machine to
the layer above (`DULprovider` is not among the provided sources).  `queue`
is the ordered list of fully received primitives that are ready. -/
structure DULQueue where
  queue : List DULPrim
deriving Repr, DecidableEq

/-- Modelled from the spec: `DUL.Peek` returns the next fully received
primitive without consuming it, or `none` if none is ready; it never blocks. -/
def DULQueue.Peek (d : DULQueue) : Option DULPrim :=
  d.queue.head?

/-- Modelled from the spec: `DUL.Receive(wait, timeout)` returns the next
ready primitive, consuming it.  The DIMSE layer only ever reaches this call
either with `wait = false` (returns immediately with the head primitive or
`none`) or with `wait = true` after `Peek` showed a ready primitive (returns
immediately with that primitive), so the wait/timeout parameters are
observationally inert here and are kept only to mirror the signature. -/
def DULQueue.Receive (d : DULQueue) (_Wait : Bool) (_Timeout : Option Nat) :
    Option DULPrim × DULQueue :=
  (d.queue.head?, ⟨d.queue.tail⟩)

/-- Modelled from the spec: the `DIMSEMessage` assembly buffer of
`DIMSEmessages.py` (not among the provided sources).  It accumulates
command-set and data-set fragment bytes, tracks per set whether the
last-fragment flag has been seen, and records the presentation-context ID
the fragments arrived on. -/
structure DIMSEMessage where
  commandSet : List Nat
  dataSet : List Nat
  commandComplete : Bool
  dataComplete : Bool
  ID : Option Nat
deriving Repr, DecidableEq

/-- The fresh assembly buffer allocated by `DIMSEMessage()`. -/
def emptyMessage : DIMSEMessage :=
  ⟨[], [], false, false, none⟩

/-- Appends one PDV fragment to the assembly buffer, in arrival order, and
records its last-fragment flag and presentation-context ID. -/
def feedPDV (m : DIMSEMessage) (v : PDV) : DIMSEMessage :=
  if v.isCommand then
    { m with commandSet := m.commandSet ++ v.payload,
             commandComplete := m.commandComplete || v.isLast,
             ID := some v.pcid }
  else
    { m with dataSet := m.dataSet ++ v.payload,
             dataComplete := m.dataComplete || v.isLast,
             ID := some v.pcid }

/-- Modelled from the spec: a message is complete once the command set is
complete and, if a data set is expected per the decoded command fields, the
data set is complete.  Whether the command fields announce a data set is
abstracted as the parameter `expectsData` over the command-set bytes. -/
def isComplete (expectsData : List Nat → Bool) (m : DIMSEMessage) : Bool :=
  m.commandComplete && (!expectsData m.commandSet || m.dataComplete)

/-- Modelled from the spec: `DIMSEMessage.Decode` feeds the PDV fragments of
one received primitive into the buffer (order-preserving) and reports
whether the message is now complete.  A `None` argument (nothing received)
and a non-data primitive feed nothing and report incomplete. -/
def DIMSEMessage.Decode (expectsData : List Nat → Bool) (m : DIMSEMessage) :
    Option DULPrim → DIMSEMessage × Bool
  | some (.pData d) =>
      let m2 := d.pdvs.foldl feedPDV m
      (m2, isComplete expectsData m2)
  | _ => (m, false)

/-- The state of a `DIMSEServiceProvider` across calls: the `self.message`
field, `none` meaning no message is currently being assembled. -/
structure DIMSEProviderState where
  message : Option DIMSEMessage
deriving Repr, DecidableEq

/-- The class test of the non-blocking receive path:
`cls in (type(None), P_DATA_ServiceParameters)` applied to the peeked
value. -/
def peekClassOk : Option DULPrim → Bool
  | none => true
  | some p => p.isPData

/-- The non-blocking branch of `DIMSEServiceProvider.Receive` (source lines
82-93), given the working assembly buffer `msg` already selected by the
entry lines.  Returns the `(params, id)` pair, the provider state after the
call, and the DUL queue after the call.  `ToParams` is the (spec-modelled,
here abstract) decoded-message-to-primitive transformation. -/
def ReceiveNoWaitCore {α : Type} (expectsData : List Nat → Bool)
    (ToParams : DIMSEMessage → α) (Timeout : Option Nat)
    (msg : DIMSEMessage) (dul : DULQueue) :
    (Option α × Option Nat) × DIMSEProviderState × DULQueue :=
  if peekClassOk dul.Peek then
    let r := dul.Receive false Timeout
    let dm := DIMSEMessage.Decode expectsData msg r.1
    if dm.2 then
      ((some (ToParams dm.1), dm.1.ID), ⟨none⟩, r.2)
    else
      ((none, none), ⟨some dm.1⟩, r.2)
  else
    ((none, none), ⟨some msg⟩, dul)

/-- `DIMSEServiceProvider.Receive` with `Wait=False`: lines 62-65 select the
working buffer (allocating a fresh one only when `self.message is None`),
then the non-blocking branch runs. -/
def ReceiveNoWait {α : Type} (expectsData : List Nat → Bool)
    (ToParams : DIMSEMessage → α) (Timeout : Option Nat)
    (st : DIMSEProviderState) (dul : DULQueue) :
    (Option α × Option Nat) × DIMSEProviderState × DULQueue :=
  ReceiveNoWaitCore expectsData ToParams Timeout
    (st.message.getD emptyMessage) dul

/-- The `while 1` loop of the blocking receive path (source lines 70-81),
with explicit fuel (number of loop iterations still allowed).  Each
iteration first lets the background reader make progress: `arrivals k` are
the primitives that became ready during the `time.sleep(0.001)` of
iteration `k` and are appended to the queue.  A `none` result means the
loop is still running after `fuel` iterations (the source loop has no exit
of its own for that case).  Note that the loop body never consults
`Timeout`; it is only forwarded to `DUL.Receive`, which is reached only
when a primitive is already ready. -/
def ReceiveWaitLoop {α : Type} (expectsData : List Nat → Bool)
    (ToParams : DIMSEMessage → α) (Timeout : Option Nat)
    (arrivals : Nat → List DULPrim) :
    Nat → Nat → DIMSEMessage → DULQueue →
    Option ((Option α × Option Nat) × DIMSEProviderState × DULQueue)
  | 0, _, _, _ => none
  | fuel + 1, k, msg, dul =>
    let dul2 : DULQueue := ⟨dul.queue ++ arrivals k⟩
    match dul2.Peek with
    | none => ReceiveWaitLoop expectsData ToParams Timeout arrivals fuel (k + 1) msg dul2
    | some nxt =>
      if nxt.isPData then
        let r := dul2.Receive true Timeout
        let dm := DIMSEMessage.Decode expectsData msg r.1
        if dm.2 then
          some ((some (ToParams dm.1), dm.1.ID), ⟨none⟩, r.2)
        else
          ReceiveWaitLoop expectsData ToParams Timeout arrivals fuel (k + 1) dm.1 r.2
      else
        some ((none, none), ⟨some msg⟩, dul2)

/-- `DIMSEServiceProvider.Receive` with `Wait=True`: lines 62-65 select the
working buffer, then the loop runs. -/
def ReceiveWait {α : Type} (expectsData : List Nat → Bool)
    (ToParams : DIMSEMessage → α) (Timeout : Option Nat)
    (arrivals : Nat → List DULPrim)
    (st : DIMSEProviderState) (dul : DULQueue) (fuel : Nat) :
    Option ((Option α × Option Nat) × DIMSEProviderState × DULQueue) :=
  ReceiveWaitLoop expectsData ToParams Timeout arrivals fuel 0
    (st.message.getD emptyMessage) dul

/-- The Python class of a service-parameter primitive handed to `Send`:
one of the five supported `*_ServiceParameters` classes, or any other
class. -/
inductive PrimClass where
  | cEcho
  | cStore
  | cFind
  | cGet
  | cMove
  | other (name : String)
deriving Repr, DecidableEq

/-- Whether the class is one of the five `Send` dispatches on. -/
def supportedClass : PrimClass → Bool
  | .cEcho | .cStore | .cFind | .cGet | .cMove => true
  | .other _ => false

/-- A service primitive as seen by `Send`: its runtime class and its
`MessageID` field (the only parts the dispatch of lines 27-51 inspects). -/
structure SendPrimitive where
  cls : PrimClass
  MessageID : Option Nat
deriving Repr, DecidableEq

/-- The ten concrete DIMSE message classes of `DIMSEmessages.py`. -/
inductive DIMSEMsgType where
  | cEchoRQ | cEchoRSP
  | cStoreRQ | cStoreRSP
  | cFindRQ | cFindRSP
  | cGetRQ | cGetRSP
  | cMoveRQ | cMoveRSP
deriving Repr, DecidableEq

/-- Whether a message class is a request variant (`*_RQ_Message`). -/
def isRequestMsg : DIMSEMsgType → Bool
  | .cEchoRQ | .cStoreRQ | .cFindRQ | .cGetRQ | .cMoveRQ => true
  | _ => false

/-- The primitive class a message class belongs to. -/
def msgClassOf : DIMSEMsgType → PrimClass
  | .cEchoRQ | .cEchoRSP => .cEcho
  | .cStoreRQ | .cStoreRSP => .cStore
  | .cFindRQ | .cFindRSP => .cFind
  | .cGetRQ | .cGetRSP => .cGet
  | .cMoveRQ | .cMoveRSP => .cMove

/-- The message-class selection of `Send` (source lines 27-51): for each of
the five supported classes, the request variant exactly when `MessageID` is
not `None`, the response variant otherwise; for any other class the local
variable `dimse_msg` stays unbound. -/
def selectMessageType (p : SendPrimitive) : Option DIMSEMsgType :=
  match p.cls with
  | .cEcho => some (if p.MessageID.isSome then .cEchoRQ else .cEchoRSP)
  | .cStore => some (if p.MessageID.isSome then .cStoreRQ else .cStoreRSP)
  | .cFind => some (if p.MessageID.isSome then .cFindRQ else .cFindRSP)
  | .cGet => some (if p.MessageID.isSome then .cGetRQ else .cGetRSP)
  | .cMove => some (if p.MessageID.isSome then .cMoveRQ else .cMoveRSP)
  | .other _ => none

/-- The failure mode of `Send`: when no dispatch branch matched, the first
later use of `dimse_msg` (the logging call on line 52, before `FromParams`,
`Encode` and any `DUL.Send`) raises an unbound-local `NameError`. -/
inductive SendErr where
  | nameError
deriving Repr, DecidableEq

/-- The fragment hand-off loop of `Send` (source lines 57-59): each encoded
P-DATA primitive is handed to `DUL.Send` in turn, which appends it to the
outbound trace of the state machine. -/
def sendFragments (dulSent : List PDataPrim) (pdatas : List PDataPrim) :
    List PDataPrim :=
  pdatas.foldl (fun acc pp => acc ++ [pp]) dulSent

/-- `DIMSEServiceProvider.Send` (source lines 24-60).  `encode` abstracts
`DIMSEMessage.Encode(id, maxpdulength)` of the (spec-modelled) message
classes; `dulSent` is the trace of primitives handed to `DUL.Send` so far.
Returns the outcome (the encoded fragments, or the unbound-local error) and
the outbound trace after the call. -/
def Send (encode : DIMSEMsgType → SendPrimitive → Nat → Nat → List PDataPrim)
    (p : SendPrimitive) (id maxpdulength : Nat) (dulSent : List PDataPrim) :
    Except SendErr (List PDataPrim) × List PDataPrim :=
  match selectMessageType p with
  | none => (.error .nameError, dulSent)
  | some t =>
    let pdatas := encode t p id maxpdulength
    (.ok pdatas, sendFragments dulSent pdatas)

/-- The operation kinds of the service primitive model. -/
inductive OpKind where
  | echo | store | find | get | move
deriving Repr, DecidableEq

/-- The request variant of a message class for an operation kind. -/
def requestVariant : OpKind → DIMSEMsgType
  | .echo => .cEchoRQ
  | .store => .cStoreRQ
  | .find => .cFindRQ
  | .get => .cGetRQ
  | .move => .cMoveRQ

/-- The response variant of a message class for an operation kind. -/
def responseVariant : OpKind → DIMSEMsgType
  | .echo => .cEchoRSP
  | .store => .cStoreRSP
  | .find => .cFindRSP
  | .get => .cGetRSP
  | .move => .cMoveRSP

/-- The operation kind of a message class. -/
def opKindOfMsg : DIMSEMsgType → OpKind
  | .cEchoRQ | .cEchoRSP => .echo
  | .cStoreRQ | .cStoreRSP => .store
  | .cFindRQ | .cFindRSP => .find
  | .cGetRQ | .cGetRSP => .get
  | .cMoveRQ | .cMoveRSP => .move

/-- Modelled from the spec: a service primitive value of the Service
Primitive Model (the `*_ServiceParameters` field records of
`DIMSEparameters.py`, not among the provided sources): Message ID or
Message ID Being Responded To, Affected SOP Class UID, the
operation-specific field (priority for a request, status for a response),
and the optional opaque data-set handle. -/
structure ServicePrimitive where
  opKind : OpKind
  MessageID : Option Nat
  MessageIDBeingRespondedTo : Option Nat
  AffectedSOPClassUID : String
  Priority : Option Nat
  Status : Option Nat
  DataSet : Option (List Nat)
deriving Repr, DecidableEq

/-- Modelled from the spec: the field content of a populated concrete DIMSE
message (command fields plus optional data set). -/
structure MessageValue where
  msgType : DIMSEMsgType
  midField : Nat
  sopClassUID : String
  prioStatus : Nat
  dataSet : Option (List Nat)
deriving Repr, DecidableEq

/-- A primitive produced by decoding a message: a request carries a Message
ID and a priority (and no response-only fields); a response carries a
Message ID Being Responded To and a status (and no request-only fields). -/
def ServicePrimitive.WellFormed (p : ServicePrimitive) : Prop :=
  (p.MessageID.isSome = true ∧ p.MessageIDBeingRespondedTo = none ∧
    p.Priority.isSome = true ∧ p.Status = none) ∨
  (p.MessageID = none ∧ p.MessageIDBeingRespondedTo.isSome = true ∧
    p.Priority = none ∧ p.Status.isSome = true)

/-- Modelled from the spec: `FromParams` populates the command
fields from a primitive; the role is a request exactly when a Message ID is
present, a response otherwise. -/
def FromParams (p : ServicePrimitive) : MessageValue :=
  match p.MessageID with
  | some mid =>
    { msgType := requestVariant p.opKind, midField := mid,
      sopClassUID := p.AffectedSOPClassUID,
      prioStatus := p.Priority.getD 0, dataSet := p.DataSet }
  | none =>
    { msgType := responseVariant p.opKind,
      midField := p.MessageIDBeingRespondedTo.getD 0,
      sopClassUID := p.AffectedSOPClassUID,
      prioStatus := p.Status.getD 0, dataSet := p.DataSet }

/-- Modelled from the spec: `ToParams` builds the service primitive from a
fields of the decoded message. -/
def ToParams (m : MessageValue) : ServicePrimitive :=
  if isRequestMsg m.msgType then
    { opKind := opKindOfMsg m.msgType, MessageID := some m.midField,
      MessageIDBeingRespondedTo := none,
      AffectedSOPClassUID := m.sopClassUID,
      Priority := some m.prioStatus, Status := none, DataSet := m.dataSet }
  else
    { opKind := opKindOfMsg m.msgType, MessageID := none,
      MessageIDBeingRespondedTo := some m.midField,
      AffectedSOPClassUID := m.sopClassUID,
      Priority := none, Status := some m.prioStatus, DataSet := m.dataSet }

/-- A Python value, as far as the `for` loop of the echoscu main script cares:
the parsed `--repeat` option is `None` when absent and an `int` when given
(`type=int` with no default); a `list` is included as the representative
iterable. -/
inductive PyVal where
  | pyNone
  | pyInt (n : Int)
  | pyList (l : List Int)
deriving Repr, DecidableEq

/-- A Python runtime error relevant here. -/
inductive PyError where
  | typeErr (msg : String)
deriving Repr, DecidableEq

/-- Starting a Python `for` loop over a value: a list yields its items in
order; an `int` or `None` is not iterable and raises `TypeError`. -/
def pyForIter : PyVal → Except PyError (List Int)
  | .pyList l => .ok l
  | .pyInt _ => .error (.typeErr "int object is not iterable")
  | .pyNone => .error (.typeErr "NoneType object is not iterable")

/-- The value `argparse` leaves in `args.repeat` (`--repeat` has `type=int`
and no default): `None` when the option is absent, the given integer
otherwise. -/
def parseRepeatOption : Option Int → PyVal
  | none => .pyNone
  | some n => .pyInt n

/-- The observable outcome of the echoscu main script after the association
attempt: how many `send_c_echo` calls ran, whether the association was
released or aborted by the normal path, and the uncaught error if any. -/
structure EchoscuOutcome where
  cEchoCount : Nat
  released : Bool
  aborted : Bool
  error : Option PyError
deriving Repr, DecidableEq

/-- The tail of the echoscu main script (source lines 218-227): if the
association is established, run `for ii in args.repeat: send_c_echo()`,
then abort or release per the `--abort` flag; an uncaught error aborts the
script before any of that completes. -/
def echoscuMain (established : Bool) (repeatArg : PyVal) (abortFlag : Bool) :
    EchoscuOutcome :=
  if established then
    match pyForIter repeatArg with
    | .error e => ⟨0, false, false, some e⟩
    | .ok l =>
      if abortFlag then ⟨l.length, false, true, none⟩
      else ⟨l.length, true, false, none⟩
  else
    ⟨0, false, false, none⟩

/-! ## Helper lemmas -/

theorem sendFragments_append (dulSent pdatas : List PDataPrim) :
    sendFragments dulSent pdatas = dulSent ++ pdatas := by
  induction pdatas generalizing dulSent with
  | nil => simp [sendFragments]
  | cons p ps ih =>
    show sendFragments (dulSent ++ [p]) ps = _
    rw [ih]
    simp

theorem opKindOfMsg_requestVariant (k : OpKind) :
    opKindOfMsg (requestVariant k) = k := by
  cases k <;> rfl

theorem opKindOfMsg_responseVariant (k : OpKind) :
    opKindOfMsg (responseVariant k) = k := by
  cases k <;> rfl

theorem isRequestMsg_requestVariant (k : OpKind) :
    isRequestMsg (requestVariant k) = true := by
  cases k <;> rfl

theorem isRequestMsg_responseVariant (k : OpKind) :
    isRequestMsg (responseVariant k) = false := by
  cases k <;> rfl

theorem requestVariant_opKindOfMsg (t : DIMSEMsgType)
    (h : isRequestMsg t = true) : requestVariant (opKindOfMsg t) = t := by
  cases t <;> simp_all [isRequestMsg, requestVariant, opKindOfMsg]

theorem responseVariant_opKindOfMsg (t : DIMSEMsgType)
    (h : isRequestMsg t = false) : responseVariant (opKindOfMsg t) = t := by
  cases t <;> simp_all [isRequestMsg, responseVariant, opKindOfMsg]

/-! ## Claim theorems -/

/-- C3: for every primitive whose class is one of the five supported
service-parameter classes, `Send` selects a message class of the same
operation, the request variant exactly when the `MessageID` field of the primitive is
not `None`, and the response variant otherwise. -/
theorem send_selects_request_iff_messageID (p : SendPrimitive)
    (h : supportedClass p.cls = true) :
    ∃ t, selectMessageType p = some t ∧ msgClassOf t = p.cls ∧
      isRequestMsg t = p.MessageID.isSome := by
  rcases p with ⟨cls, mid⟩
  cases cls <;> cases mid <;>
    simp_all [supportedClass, selectMessageType, msgClassOf, isRequestMsg]

/-- Witness for C3 at the concrete primitive `C_ECHO` with `MessageID = 1`. -/
theorem send_selects_request_iff_messageID_witness :
    ∃ t, selectMessageType ⟨PrimClass.cEcho, some 1⟩ = some t ∧
      msgClassOf t = PrimClass.cEcho ∧
      isRequestMsg t = (some 1 : Option Nat).isSome :=
  send_selects_request_iff_messageID ⟨PrimClass.cEcho, some 1⟩ (by decide)

/-- C6: for every primitive whose class is none of the five supported
service-parameter classes, `Send` fails with the unbound-local `NameError`
(raised at the first use of `dimse_msg`, before any fragment is encoded)
and hands no primitive to the state machine. -/
theorem send_unsupported_class_fails
    (encode : DIMSEMsgType → SendPrimitive → Nat → Nat → List PDataPrim)
    (p : SendPrimitive) (id maxpdulength : Nat) (dulSent : List PDataPrim)
    (h : supportedClass p.cls = false) :
    Send encode p id maxpdulength dulSent = (.error .nameError, dulSent) := by
  rcases p with ⟨cls, mid⟩
  cases cls <;> simp_all [supportedClass, Send, selectMessageType]

/-- Witness for C6 at a primitive of an unsupported class. -/
theorem send_unsupported_class_fails_witness :
    Send (fun _ _ _ _ => []) ⟨PrimClass.other "A_RELEASE_ServiceParameters", none⟩
        1 16384 [] = (.error .nameError, []) :=
  send_unsupported_class_fails (fun _ _ _ _ => [])
    ⟨PrimClass.other "A_RELEASE_ServiceParameters", none⟩ 1 16384 [] (by decide)

/-- C8: for every supported primitive, `Send` hands the encoded P-DATA-TF
primitives to the state machine exactly in the order the encoder produced
them (the outbound trace is extended by exactly that list, in order) and
returns successfully only after every fragment has been handed off. -/
theorem send_hands_fragments_in_order
    (encode : DIMSEMsgType → SendPrimitive → Nat → Nat → List PDataPrim)
    (p : SendPrimitive) (id maxpdulength : Nat) (dulSent : List PDataPrim)
    (h : supportedClass p.cls = true) :
    ∃ t, selectMessageType p = some t ∧
      Send encode p id maxpdulength dulSent =
        (.ok (encode t p id maxpdulength),
         dulSent ++ encode t p id maxpdulength) := by
  rcases p with ⟨cls, mid⟩
  cases cls <;> cases mid <;>
    simp_all [supportedClass, Send, selectMessageType, sendFragments_append]

/-- Witness for C8 at a concrete `C_STORE` response primitive and a
two-fragment encoder. -/
theorem send_hands_fragments_in_order_witness :
    ∃ t, selectMessageType ⟨PrimClass.cStore, none⟩ = some t ∧
      Send (fun _ _ _ _ => [⟨[]⟩, ⟨[⟨1, true, true, [2]⟩]⟩])
          ⟨PrimClass.cStore, none⟩ 1 0 [⟨[]⟩] =
        (.ok [⟨[]⟩, ⟨[⟨1, true, true, [2]⟩]⟩],
         [⟨[]⟩] ++ [⟨[]⟩, ⟨[⟨1, true, true, [2]⟩]⟩]) :=
  send_hands_fragments_in_order (fun _ _ _ _ => [⟨[]⟩, ⟨[⟨1, true, true, [2]⟩]⟩])
    ⟨PrimClass.cStore, none⟩ 1 0 [⟨[]⟩] (by decide)

/-- C9: `FromParams` followed by `ToParams` reproduces any well-formed
service primitive exactly, and `ToParams` followed by `FromParams`
reproduces any message value exactly: the two transformations are pure,
lossless inverses for any value produced by the other direction. -/
theorem params_round_trip :
    (∀ p : ServicePrimitive, p.WellFormed → ToParams (FromParams p) = p) ∧
    (∀ m : MessageValue, FromParams (ToParams m) = m) := by
  constructor
  · rintro ⟨k, mid, midr, sop, prio, status, ds⟩
      (⟨h1, h2, h3, h4⟩ | ⟨h1, h2, h3, h4⟩)
    · rcases Option.isSome_iff_exists.mp h1 with ⟨a, ha⟩
      rcases Option.isSome_iff_exists.mp h3 with ⟨b, hb⟩
      subst ha hb h2 h4
      simp [FromParams, ToParams, isRequestMsg_requestVariant,
        opKindOfMsg_requestVariant]
    · rcases Option.isSome_iff_exists.mp h2 with ⟨a, ha⟩
      rcases Option.isSome_iff_exists.mp h4 with ⟨b, hb⟩
      subst ha hb h1 h3
      simp [FromParams, ToParams, isRequestMsg_responseVariant,
        opKindOfMsg_responseVariant]
  · rintro ⟨t, mid, sop, ps, ds⟩
    by_cases h : isRequestMsg t = true
    · simp [ToParams, FromParams, h, requestVariant_opKindOfMsg t h]
    · rw [Bool.not_eq_true] at h
      simp [ToParams, FromParams, h, responseVariant_opKindOfMsg t h]

/-- Witness for C9 at a concrete C-ECHO request primitive. -/
theorem params_round_trip_witness :
    ToParams (FromParams ⟨OpKind.echo, some 1, none, "1.2.840.10008.1.1",
        some 0, none, none⟩) =
      ⟨OpKind.echo, some 1, none, "1.2.840.10008.1.1", some 0, none, none⟩ :=
  params_round_trip.1 ⟨OpKind.echo, some 1, none, "1.2.840.10008.1.1",
    some 0, none, none⟩ (Or.inl ⟨rfl, rfl, rfl, rfl⟩)

/-- C10: in the echoscu application, for every established association and
every value of the `--repeat` option (absent, hence `None`, or any integer
`n`), the loop `for ii in args.repeat` raises a `TypeError` because an
`int` or `None` is not iterable, so no C-ECHO request is ever sent and the
association is neither released nor aborted by the normal path. -/
theorem echoscu_repeat_loop_raises (o : Option Int) (abortFlag : Bool) :
    ∃ s, echoscuMain true (parseRepeatOption o) abortFlag =
      ⟨0, false, false, some (.typeErr s)⟩ := by
  cases o <;> exact ⟨_, rfl⟩

theorem receiveWaitLoop_no_traffic (α : Type) (ed : List Nat → Bool)
    (tp : DIMSEMessage → α) (T : Option Nat) :
    ∀ (fuel k : Nat) (msg : DIMSEMessage),
      ReceiveWaitLoop ed tp T (fun _ => []) fuel k msg ⟨[]⟩ = none := by
  intro fuel
  induction fuel with
  | zero => intro k msg; rfl
  | succ n ih =>
    intro k msg
    simpa [ReceiveWaitLoop, DULQueue.Peek] using ih (k + 1) msg

/-- C1: on an association where no primitive ever becomes ready, a call to
`Receive` with `Wait=True` and any (finite or not) `Timeout` never returns:
the `while 1` loop peeks `None` and continues forever, whatever bound
`fuel` is placed on the number of iterations.  The `Timeout` argument is
never consulted on this path, so the call does not terminate when the
timeout elapses and never produces `(None, None)`. -/
theorem receive_wait_no_traffic_never_returns (α : Type) (ed : List Nat → Bool)
    (tp : DIMSEMessage → α) (T : Option Nat) (st : DIMSEProviderState)
    (fuel : Nat) :
    ReceiveWait ed tp T (fun _ => []) st ⟨[]⟩ fuel = none :=
  receiveWaitLoop_no_traffic α ed tp T fuel 0 (st.message.getD emptyMessage)

/-- C2: on both the blocking and the non-blocking path, if the next
primitive reported by `DUL.Peek` is of a class other than
`P_DATA_ServiceParameters`, `Receive` returns `(None, None)`. -/
theorem receive_non_pdata_returns_none_none :
    (∀ (α : Type) (ed : List Nat → Bool) (tp : DIMSEMessage → α)
        (T : Option Nat) (arr : Nat → List DULPrim) (fuel k : Nat)
        (msg : DIMSEMessage) (dul : DULQueue) (nxt : DULPrim),
        (DULQueue.mk (dul.queue ++ arr k)).Peek = some nxt →
        nxt.isPData = false →
        ReceiveWaitLoop ed tp T arr (fuel + 1) k msg dul =
          some ((none, none), ⟨some msg⟩, ⟨dul.queue ++ arr k⟩)) ∧
    (∀ (α : Type) (ed : List Nat → Bool) (tp : DIMSEMessage → α)
        (T : Option Nat) (msg : DIMSEMessage) (dul : DULQueue)
        (nxt : DULPrim),
        dul.Peek = some nxt → nxt.isPData = false →
        (ReceiveNoWaitCore ed tp T msg dul).1 = (none, none)) := by
  constructor
  · intro α ed tp T arr fuel k msg dul nxt hpeek hnp
    simp [ReceiveWaitLoop, hpeek, hnp]
  · intro α ed tp T msg dul nxt hpeek hnp
    simp [ReceiveNoWaitCore, peekClassOk, hpeek, hnp]

/-- Witness for C2: a release primitive at the head of the queue, on each
path. -/
theorem receive_non_pdata_returns_none_none_witness :
    ReceiveWaitLoop (fun _ => false) (fun m => m) none (fun _ => []) 1 0
        emptyMessage ⟨[DULPrim.release]⟩ =
      some ((none, none), ⟨some emptyMessage⟩, ⟨[DULPrim.release]⟩) ∧
    (ReceiveNoWaitCore (fun _ => false) (fun m => m) none emptyMessage
        ⟨[DULPrim.release]⟩).1 = (none, none) := by
  constructor
  · have h := receive_non_pdata_returns_none_none.1 DIMSEMessage
      (fun _ => false) (fun m => m) none (fun _ => []) 0 0 emptyMessage
      ⟨[DULPrim.release]⟩ DULPrim.release rfl rfl
    simpa using h
  · exact receive_non_pdata_returns_none_none.2 DIMSEMessage
      (fun _ => false) (fun m => m) none emptyMessage
      ⟨[DULPrim.release]⟩ DULPrim.release rfl rfl

/-- C4: whenever `Receive` completes decoding of an assembled message, it
returns the pair `(ToParams(), id)` built from the decoded message — where
`id` is the presentation-context ID recorded from the fragments the message
arrived on — and resets the assembly buffer to `None` (non-blocking path
stated exactly; blocking path stated for every returning run of the
loop). -/
theorem receive_complete_returns_params_and_resets :
    (∀ (α : Type) (ed : List Nat → Bool) (tp : DIMSEMessage → α)
        (T : Option Nat) (msg : DIMSEMessage) (dul : DULQueue),
        peekClassOk dul.Peek = true →
        (DIMSEMessage.Decode ed msg (dul.Receive false T).1).2 = true →
        ReceiveNoWaitCore ed tp T msg dul =
          ((some (tp (DIMSEMessage.Decode ed msg (dul.Receive false T).1).1),
            (DIMSEMessage.Decode ed msg (dul.Receive false T).1).1.ID),
           ⟨none⟩, (dul.Receive false T).2)) ∧
    (∀ (α : Type) (ed : List Nat → Bool) (tp : DIMSEMessage → α)
        (T : Option Nat) (arr : Nat → List DULPrim) (fuel k : Nat)
        (msg : DIMSEMessage) (dul : DULQueue)
        (r : Option α × Option Nat) (st2 : DIMSEProviderState)
        (dul2 : DULQueue) (a : α),
        ReceiveWaitLoop ed tp T arr fuel k msg dul = some (r, st2, dul2) →
        r.1 = some a →
        st2.message = none ∧ ∃ m2, r = (some (tp m2), m2.ID)) := by
  constructor
  · intro α ed tp T msg dul h1 h2
    simp [ReceiveNoWaitCore, h1, h2]
  · intro α ed tp T arr fuel
    induction fuel with
    | zero =>
      intro k msg dul r st2 dul2 a h hr
      simp [ReceiveWaitLoop] at h
    | succ n ih =>
      intro k msg dul r st2 dul2 a h hr
      rw [ReceiveWaitLoop] at h
      simp only [] at h
      split at h
      · exact ih (k + 1) msg _ r st2 dul2 a h hr
      · split at h
        · split at h
          · rename_i hd
            simp only [Option.some.injEq, Prod.mk.injEq] at h
            obtain ⟨h1, h2, h3⟩ := h
            refine ⟨by rw [← h2], ?_⟩
            exact ⟨_, by rw [← h1]⟩
          · exact ih (k + 1) _ _ r st2 dul2 a h hr
        · simp only [Option.some.injEq, Prod.mk.injEq] at h
          obtain ⟨h1, h2, h3⟩ := h
          rw [← h1] at hr
          simp at hr

/-- Witness for C4: a single command PDV with the last-fragment flag set,
for a message expecting no data set, completes the message; `Receive`
returns its `ToParams` and its presentation-context ID 3, and resets the
buffer. -/
theorem receive_complete_returns_params_and_resets_witness :
    ReceiveNoWaitCore (fun _ => false) (fun m => m) none emptyMessage
        ⟨[DULPrim.pData ⟨[⟨3, true, true, [7, 8]⟩]⟩]⟩ =
      ((some (DIMSEMessage.Decode (fun _ => false) emptyMessage
          ((DULQueue.mk [DULPrim.pData ⟨[⟨3, true, true, [7, 8]⟩]⟩]).Receive
            false none).1).1,
        (DIMSEMessage.Decode (fun _ => false) emptyMessage
          ((DULQueue.mk [DULPrim.pData ⟨[⟨3, true, true, [7, 8]⟩]⟩]).Receive
            false none).1).1.ID),
       ⟨none⟩,
       ((DULQueue.mk [DULPrim.pData ⟨[⟨3, true, true, [7, 8]⟩]⟩]).Receive
         false none).2) :=
  receive_complete_returns_params_and_resets.1 DIMSEMessage (fun _ => false)
    (fun m => m) none emptyMessage
    ⟨[DULPrim.pData ⟨[⟨3, true, true, [7, 8]⟩]⟩]⟩ rfl rfl

/-- C5: a fresh assembly buffer is selected only when `self.message` is
`None` at entry, and an existing buffer is resumed otherwise; and every
call that returns without completing a message leaves the in-progress
assembly state in place (the `message` field of the provider is not reset), so
a subsequent call resumes with it (stated for the non-blocking path and for
every returning run of the blocking loop). -/
theorem receive_preserves_assembly_state :
    (∀ (α : Type) (ed : List Nat → Bool) (tp : DIMSEMessage → α)
        (T : Option Nat) (m : DIMSEMessage) (dul : DULQueue),
        ReceiveNoWait ed tp T ⟨some m⟩ dul = ReceiveNoWaitCore ed tp T m dul) ∧
    (∀ (α : Type) (ed : List Nat → Bool) (tp : DIMSEMessage → α)
        (T : Option Nat) (dul : DULQueue),
        ReceiveNoWait ed tp T ⟨none⟩ dul =
          ReceiveNoWaitCore ed tp T emptyMessage dul) ∧
    (∀ (α : Type) (ed : List Nat → Bool) (tp : DIMSEMessage → α)
        (T : Option Nat) (m : DIMSEMessage) (dul : DULQueue),
        (ReceiveNoWaitCore ed tp T m dul).1.1 = none →
        ((ReceiveNoWaitCore ed tp T m dul).2.1).message.isSome = true) ∧
    (∀ (α : Type) (ed : List Nat → Bool) (tp : DIMSEMessage → α)
        (T : Option Nat) (arr : Nat → List DULPrim) (fuel k : Nat)
        (msg : DIMSEMessage) (dul : DULQueue)
        (r : Option α × Option Nat) (st2 : DIMSEProviderState)
        (dul2 : DULQueue),
        ReceiveWaitLoop ed tp T arr fuel k msg dul = some (r, st2, dul2) →
        r.1 = none → st2.message.isSome = true) := by
  refine ⟨fun α ed tp T m dul => rfl, fun α ed tp T dul => rfl, ?_, ?_⟩
  · intro α ed tp T m dul h
    by_cases hp : peekClassOk dul.Peek = true
    · by_cases hd : (DIMSEMessage.Decode ed m (dul.Receive false T).1).2 = true
      · simp [ReceiveNoWaitCore, hp, hd] at h
      · simp [ReceiveNoWaitCore, hp, hd]
    · simp [ReceiveNoWaitCore, hp]
  · intro α ed tp T arr fuel
    induction fuel with
    | zero =>
      intro k msg dul r st2 dul2 h hr
      simp [ReceiveWaitLoop] at h
    | succ n ih =>
      intro k msg dul r st2 dul2 h hr
      rw [ReceiveWaitLoop] at h
      simp only [] at h
      split at h
      · exact ih (k + 1) msg _ r st2 dul2 h hr
      · split at h
        · split at h
          · simp only [Option.some.injEq, Prod.mk.injEq] at h
            obtain ⟨h1, h2, h3⟩ := h
            rw [← h1] at hr
            simp at hr
          · exact ih (k + 1) _ _ r st2 dul2 h hr
        · simp only [Option.some.injEq, Prod.mk.injEq] at h
          obtain ⟨h1, h2, h3⟩ := h
          rw [← h2]
          rfl

/-- Witness for C5: with an empty queue, the non-blocking call returns
`(None, None)` and keeps the (here freshly selected) assembly buffer in
place. -/
theorem receive_preserves_assembly_state_witness :
    ((ReceiveNoWaitCore (fun _ => false) (fun m => m) none emptyMessage
        ⟨[]⟩).2.1).message.isSome = true :=
  receive_preserves_assembly_state.2.2.1 DIMSEMessage (fun _ => false)
    (fun m => m) none emptyMessage ⟨[]⟩ rfl

/-- C7: on the non-blocking path, when the next queued primitive is not a
P-DATA primitive, `Receive` returns `(None, None)` and leaves the state
queue of the state machine exactly as it was (the peek is non-destructive): the
primitive remains available for the caller to fetch separately. -/
theorem receive_nowait_non_pdata_leaves_queue (α : Type)
    (ed : List Nat → Bool) (tp : DIMSEMessage → α) (T : Option Nat)
    (st : DIMSEProviderState) (dul : DULQueue) (nxt : DULPrim)
    (hpeek : dul.Peek = some nxt) (hnp : nxt.isPData = false) :
    ReceiveNoWait ed tp T st dul =
      ((none, none), ⟨some (st.message.getD emptyMessage)⟩, dul) := by
  simp [ReceiveNoWait, ReceiveNoWaitCore, peekClassOk, hpeek, hnp]

/-- Witness for C7: an abort primitive at the head of the queue stays
queued. -/
theorem receive_nowait_non_pdata_leaves_queue_witness :
    ReceiveNoWait (fun _ => false) (fun m => m) none ⟨none⟩
        ⟨[DULPrim.abort, DULPrim.pData ⟨[]⟩]⟩ =
      ((none, none), ⟨some ((none : Option DIMSEMessage).getD emptyMessage)⟩,
       ⟨[DULPrim.abort, DULPrim.pData ⟨[]⟩]⟩) :=
  receive_nowait_non_pdata_leaves_queue DIMSEMessage (fun _ => false)
    (fun m => m) none ⟨none⟩ ⟨[DULPrim.abort, DULPrim.pData ⟨[]⟩]⟩
    DULPrim.abort rfl rfl

end PynetdicomLegacy
